import Mathlib

/-!
# Verification of the Dockerfile create-and-validate retry loop

Shallow embedding of `src/agent/nodes/create_and_validate_dockerfile.py`
and the leaf helpers it uses from `src/agent/tools/docker_tools.py`.

The external collaborators (the LLM transformer and the `docker buildx bake`
subprocess) are modelled as oracles supplied to the loop; the local file
system is modelled as a partial map from path strings to file contents.
Paths are modelled as plain strings with `/` as separator, mirroring the
`pathlib` operations the source performs (`parent`, `name`, `stem`,
`suffix`, `/`-join, `relative_to`).
-/

namespace MigrationAgent

/-- `text.split(sep)` on character lists (Python `str.split` with a
one-character separator: splitting the empty text yields one empty field). -/
def splitOnChar (sep : Char) : List Char → List (List Char)
  | [] => [[]]
  | c :: cs =>
      let rest := splitOnChar sep cs
      if c = sep then [] :: rest
      else
        match rest with
        | [] => [[c]]
        | r :: rs => (c :: r) :: rs

/-- `text.split(sep)` on strings. -/
def pySplit (s : String) (sep : Char) : List String :=
  (splitOnChar sep s.toList).map List.asString

/-- `text.strip()` (ASCII whitespace model). -/
def pyStrip (s : String) : String :=
  ((s.toList.dropWhile Char.isWhitespace).reverse.dropWhile
    Char.isWhitespace).reverse.asString

/-- `text.upper()` (ASCII model). -/
def pyUpper (s : String) : String := (s.toList.map Char.toUpper).asString

/-- `text.startswith(pat)`. -/
def pyStartsWith (s pat : String) : Bool := pat.toList.isPrefixOf s.toList

/-- `len(text) == 0`, phrased over the character list. -/
def strIsEmpty (s : String) : Bool := s.toList.isEmpty

/-- Join a list of strings with a separator (for rebuilding paths). -/
def joinWith (sep : String) : List String → String
  | [] => ""
  | [x] => x
  | x :: xs => x ++ sep ++ joinWith sep xs

/-- Python truthiness of an optional string: `None` and `""` are falsy. -/
def truthy : Option String → Bool
  | none => false
  | some s => !strIsEmpty s

/-- `Path(a) / b` for a relative `b` (string model). -/
def joinPath (a b : String) : String := a ++ "/" ++ b

/-- `Path(p).name`: the portion after the last slash. -/
def pathName (p : String) : String := (pySplit p '/').getLastD p

/-- `str(Path(p).parent)`: the portion before the last slash, `"."` when the
path has a single component. -/
def pathParent (p : String) : String :=
  let comps := (pySplit p '/').dropLast
  if comps.isEmpty then "." else joinWith "/" comps

/-- Index (in characters) of the last `'.'` of a file name, if any
(Python's `name.rfind('.')` when it is not `-1`). -/
def lastDotIdx (s : String) : Option Nat :=
  s.toList.enum.foldl (fun acc p => if p.2 = '.' then some p.1 else acc) none

/-- `PurePath.suffix` of a bare file name: `name[i:]` when the last dot sits
strictly inside the name (`0 < i < len(name) - 1`), else `""`. -/
def pySuffix (name : String) : String :=
  match lastDotIdx name with
  | none => ""
  | some i =>
      if 0 < i ∧ i < name.toList.length - 1 then (name.toList.drop i).asString
      else ""

/-- `PurePath.stem` of a bare file name: `name[:i]` under the same condition
as `pySuffix`, else the whole name. -/
def pyStem (name : String) : String :=
  match lastDotIdx name with
  | none => name
  | some i =>
      if 0 < i ∧ i < name.toList.length - 1 then (name.toList.take i).asString
      else name

/-- `str(Path(p).parent / name)`: Python renders `Path(".") / name` as just
`name`. -/
def pyJoinParent (p name : String) : String :=
  let d := pathParent p
  if d = "." then name else d ++ "/" ++ name

/-- `Path(full).relative_to(clone)` for `full = clone ++ "/" ++ rel`. -/
def relTo (clone full : String) : String :=
  (full.toList.drop (clone.toList.length + 1)).asString

/-- `is_multi_stage_dockerfile` (docker_tools.py lines 27-47): split on
newlines, strip each line, skip empty lines and lines starting with `#`, and
count lines whose upper-cased text starts with `FROM`; multi-stage iff the
count exceeds one. -/
def is_multi_stage_dockerfile (dockerfile_content : String) : Bool :=
  let lines := pySplit dockerfile_content '\n'
  let from_count := lines.foldl
    (fun (acc : Nat) (line : String) =>
      let stripped := pyStrip line
      if !strIsEmpty stripped && !(pyStartsWith stripped "#") then
        if pyStartsWith (pyUpper stripped) "FROM" then acc + 1 else acc
      else acc) 0
  decide (from_count > 1)

/-- The file-name derivation performed by `write_dockerfile_argo`
(docker_tools.py lines 60-62): the fixed name `Dockerfile-argo` placed in the
parent directory of the original path, regardless of the original file name. -/
def write_dockerfile_argo_path (dockerfile_path : String) : String :=
  pyJoinParent dockerfile_path "Dockerfile-argo"

/-- The derived-variant relative path built by the pass-through branch of the
node (create_and_validate_dockerfile.py lines 125-135): insert `-argo` before
the extension when there is one, else append it to the name, keeping the
parent directory. -/
def deriveArgoRelPath (dockerfile_path : String) : String :=
  let name := pathName dockerfile_path
  let argoName :=
    if !strIsEmpty (pySuffix name) then pyStem name ++ "-argo" ++ pySuffix name
    else name ++ "-argo"
  let parent := pathParent dockerfile_path
  if parent = "." then argoName else parent ++ "/" ++ argoName

/-- First maximal run of non-whitespace characters of a line (used only to
state the spec's reading of the Shape Inspector contract). -/
def leadingToken (s : String) : String :=
  (s.toList.takeWhile (fun c => !c.isWhitespace)).asString

/-- The Shape Inspector contract as the spec words it (spec section 4.1):
count lines whose case-insensitive LEADING TOKEN equals the keyword `FROM`
(after discarding blank lines and `#`-comment lines), true iff that count
exceeds one.  Stated only to compare against `is_multi_stage_dockerfile`. -/
def isTargetShapeSpec (content : String) : Bool :=
  let lines := pySplit content '\n'
  let count := (lines.filter (fun line =>
    let stripped := pyStrip line
    !strIsEmpty stripped && !(pyStartsWith stripped "#") &&
      (pyUpper (leadingToken stripped) == "FROM"))).length
  decide (count > 1)

/-- A stripped line that the source's counter accepts: non-blank, not a
comment, and its upper-cased text starts with `FROM`. -/
def fromKeywordLine (line : String) : Bool :=
  let stripped := pyStrip line
  !strIsEmpty stripped && !(pyStartsWith stripped "#") &&
    pyStartsWith (pyUpper stripped) "FROM"

/-- Count of accepted lines, phrased with `filter`/`length`. -/
def countFromKeywordLines (content : String) : Nat :=
  ((pySplit content '\n').filter fromKeywordLine).length

/-- The subprocess timeout the node passes to `subprocess.run`
(create_and_validate_dockerfile.py line 253). -/
def validation_timeout_seconds : Nat := 300

/-- Outcome of one `subprocess.run` invocation of the validator: normal exit
with captured streams, `subprocess.TimeoutExpired`, `FileNotFoundError`, or
any other exception (whose text `str(e)` is `msg`). -/
inductive VOutcome where
  | exited (returncode : Int) (stderr stdout : String)
  | timeout
  | toolNotFound
  | otherError (msg : String)
deriving Repr, DecidableEq

/-- Observable actions of one loop execution, in order: successful file
reads, the pass-through verbatim copy, calls to the LLM transformer (with the
prior-error context passed), file writes, and validator invocations. -/
inductive Event where
  | readFile (path content : String)
  | passThroughWrite (path content : String)
  | transformCall (content : String) (priorError : Option String)
  | writeFile (path content : String)
  | validateCall (bakePath : String)
deriving Repr, DecidableEq

/-- The inputs the node takes from the agent state (after the node's
defaulting of `dockerfile_validation_max_retries` to 2). -/
structure Config where
  clone_path : String
  dockerfile_path : String
  build_platform : String
  build_as_config : Option String
  docker_bake_file_path : Option String
  max_retries : Nat

/-- The mutable agent-state fields the node touches, plus the modelled file
system, the count of validator invocations made so far, and the event
trace. `none` models a field that is unset / `None`. -/
structure St where
  fs : String → Option String
  dockerfile_argo_path : Option String
  dockerfile_updated : Option Bool
  dockerfile_validation_passed : Option Bool
  dockerfile_validation_retry_count : Nat
  dockerfile_validation_error : Option String
  error : Option String
  vcalls : Nat
  trace : List Event

/-- Overwrite one file of the modelled file system. -/
def updateFs (fs : String → Option String) (p c : String) :
    String → Option String :=
  fun q => if q = p then some c else fs q

/-- Append one event to the trace. -/
def addEvent (st : St) (e : Event) : St := { st with trace := st.trace ++ [e] }

/-- Oracle giving the outcome of the n-th validator subprocess invocation. -/
abbrev Validator := Nat → VOutcome

/-- Oracle for `convert_dockerfile_to_multi_stage(content, build_platform,
build_as_config, validation_error)`; `Except.error e` models a raised
exception with text `str(e) = e`. -/
abbrev TransformOracle :=
  String → String → Option String → Option String → Except String String

/-- Result of one iteration of the `while` body: `done` models a `return`
from the node, `next` models `continue` with the updated local
`validation_error`. -/
inductive BodyResult where
  | done (st : St)
  | next (validation_error : Option String) (st : St)

/-- The state carried by either body result. -/
def BodyResult.st : BodyResult → St
  | .done s => s
  | .next _ s => s

/-- Whether the body result is a `return` from the node. -/
def BodyResult.isDone : BodyResult → Bool
  | .done _ => true
  | .next _ _ => false

/-- The `validation_error` carried into the next iteration, if any. -/
def BodyResult.carriedError : BodyResult → Option String
  | .done _ => none
  | .next v _ => v

/-- Lines 80-100 of the node: the file the current attempt reads — the
`-argo` variant when this is a retry with a (truthy) validation error and the
variant path is set, the original Dockerfile otherwise. -/
def readTarget (cfg : Config) (retry_count : Nat)
    (validation_error : Option String) (st : St) : String :=
  if 0 < retry_count ∧ truthy validation_error then
    match st.dockerfile_argo_path with
    | some argo => joinPath cfg.clone_path argo
    | none => joinPath cfg.clone_path cfg.dockerfile_path
  else joinPath cfg.clone_path cfg.dockerfile_path

/-- Lines 124-145 of the node: the pass-through branch — derive the `-argo`
sibling name from the original Dockerfile path and copy the (already
multi-stage) content there verbatim. -/
def passThroughStep (cfg : Config) (st : St) (content : String) : St :=
  let argoRel := deriveArgoRelPath cfg.dockerfile_path
  let argoFull := joinPath cfg.clone_path argoRel
  { addEvent st (.passThroughWrite argoFull content) with
      fs := updateFs st.fs argoFull content
      dockerfile_argo_path := some argoRel
      dockerfile_updated := some true }

/-- Lines 181-200 of the node: persist the transformer output — in place at
the file just read when retrying with a truthy validation error, else at the
fixed `Dockerfile-argo` sibling of the file just read. -/
def writeStep (cfg : Config) (retry_count : Nat)
    (validation_error : Option String) (st : St)
    (full_dockerfile_path updated_content : String) : St :=
  if 0 < retry_count ∧ truthy validation_error then
    let relArgo := relTo cfg.clone_path full_dockerfile_path
    { addEvent st (.writeFile full_dockerfile_path updated_content) with
        fs := updateFs st.fs full_dockerfile_path updated_content
        dockerfile_argo_path := some relArgo
        dockerfile_updated := some true }
  else
    let argoFull := write_dockerfile_argo_path full_dockerfile_path
    let relArgo := relTo cfg.clone_path argoFull
    { addEvent st (.writeFile argoFull updated_content) with
        fs := updateFs st.fs argoFull updated_content
        dockerfile_argo_path := some relArgo
        dockerfile_updated := some true }

/-- Lines 256-339 of the node: map one subprocess outcome to the pair
(validation passed?, diagnostics recorded): exit 0 passes with no
diagnostics; non-zero exit fails with stderr when non-empty else stdout;
timeout, missing executable, and any other exception fail with their fixed
messages. -/
def validationOutcomeResult : VOutcome → Bool × Option String
  | .exited returncode stderr stdout =>
      if returncode = 0 then (true, none)
      else (false, some (if strIsEmpty stderr then stdout else stderr))
  | .timeout => (false, some "Dockerfile validation timed out after 5 minutes")
  | .toolNotFound =>
      (false,
        some "Docker buildx not found. Please ensure Docker is installed and buildx is available.")
  | .otherError msg =>
      (false, some ("Unexpected error during validation: " ++ msg))

/-- Lines 220-226 of the node: the validation-spec location — the explicit
`docker_bake_file_path` when truthy, else `docker-argo-bake.hcl` next to the
`-argo` file. -/
def bakeFilePath (cfg : Config) (argoRel : String) : String :=
  if truthy cfg.docker_bake_file_path then
    joinPath cfg.clone_path (cfg.docker_bake_file_path.getD "")
  else pyJoinParent (joinPath cfg.clone_path argoRel) "docker-argo-bake.hcl"

/-- Lines 210-339 of the node: validate the current `-argo` file.  A missing
variant path or a missing bake file returns immediately with
`passed = false` and no subprocess call; otherwise the validator runs once
and its outcome either ends the loop (pass, or budget exhausted after the
increment) or continues it with the new error context. -/
def validateStep (cfg : Config) (validator : Validator) (retry_count : Nat)
    (st : St) : BodyResult :=
  match st.dockerfile_argo_path with
  | none =>
      .done { st with
        dockerfile_validation_passed := some false
        dockerfile_validation_error :=
          some "No Dockerfile-argo path found for validation" }
  | some argoRel =>
    let bake := bakeFilePath cfg argoRel
    match st.fs bake with
    | none =>
        .done { st with
          dockerfile_validation_passed := some false
          dockerfile_validation_error :=
            some ("Docker bake file not found at " ++
              relTo cfg.clone_path bake) }
    | some _ =>
      let outcome := validator st.vcalls
      let st1 := { addEvent st (.validateCall bake) with vcalls := st.vcalls + 1 }
      let vres := validationOutcomeResult outcome
      if vres.1 then
        .done { st1 with
          dockerfile_validation_passed := some true
          dockerfile_validation_error := none
          dockerfile_validation_retry_count := retry_count }
      else
        let st2 := { st1 with
          dockerfile_validation_retry_count := retry_count + 1
          dockerfile_validation_error := vres.2 }
        if cfg.max_retries < retry_count + 1 then
          .done { st2 with dockerfile_validation_passed := some false }
        else .next vres.2 st2

/-- One iteration of the `while retry_count <= max_retries` body
(lines 79-339): read the live file, take the pass-through branch when
eligible, otherwise call the transformer (fatal on exception) and persist its
output, then validate. -/
def loopBody (cfg : Config) (validator : Validator)
    (transformer : TransformOracle) (retry_count : Nat)
    (validation_error : Option String) (st : St) : BodyResult :=
  let full_dockerfile_path := readTarget cfg retry_count validation_error st
  match st.fs full_dockerfile_path with
  | none =>
      .done { st with
        dockerfile_updated := some false
        dockerfile_validation_passed := some false
        error := some ("Dockerfile not found at " ++ full_dockerfile_path) }
  | some dockerfile_content =>
    let st1 := addEvent st (.readFile full_dockerfile_path dockerfile_content)
    if retry_count = 0 ∧ is_multi_stage_dockerfile dockerfile_content ∧
        ¬ truthy validation_error then
      validateStep cfg validator retry_count
        (passThroughStep cfg st1 dockerfile_content)
    else
      let st2 := addEvent st1 (.transformCall dockerfile_content validation_error)
      match transformer dockerfile_content cfg.build_platform
          cfg.build_as_config validation_error with
      | .error e =>
          .done { st2 with
            dockerfile_updated := some false
            dockerfile_validation_passed := some false
            error := some ("Failed to convert Dockerfile using LLM: " ++ e) }
      | .ok updated_content =>
          validateStep cfg validator retry_count
            (writeStep cfg retry_count validation_error st2
              full_dockerfile_path updated_content)

/-- The `while retry_count <= max_retries` loop (lines 79-343), with explicit
fuel (each iteration that continues increases `retry_count` by one, so
`max_retries + 2` fuel always suffices from `retry_count = 0`).  Falling out
of the `while` sets `passed = false` (lines 341-343). -/
def runLoop (cfg : Config) (validator : Validator)
    (transformer : TransformOracle) :
    Nat → Nat → Option String → St → St
  | 0, _, _, st => st
  | fuel + 1, retry_count, validation_error, st =>
    if retry_count ≤ cfg.max_retries then
      match loopBody cfg validator transformer retry_count validation_error st with
      | .done st' => st'
      | .next verr st' =>
          runLoop cfg validator transformer fuel (retry_count + 1) verr st'
    else { st with dockerfile_validation_passed := some false }

/-- The agent-state fields at node entry on a fresh run. -/
def initSt (fs0 : String → Option String) : St :=
  { fs := fs0
    dockerfile_argo_path := none
    dockerfile_updated := none
    dockerfile_validation_passed := none
    dockerfile_validation_retry_count := 0
    dockerfile_validation_error := none
    error := none
    vcalls := 0
    trace := [] }

/-- `create_and_validate_dockerfile_node` on a fresh state (retry count 0):
the precondition checks of lines 47-73 followed by the retry loop. -/
def create_and_validate_dockerfile_node (cfg : Config) (validator : Validator)
    (transformer : TransformOracle) (fs0 : String → Option String) : St :=
  if strIsEmpty cfg.build_platform then
    { initSt fs0 with
        dockerfile_updated := some false
        dockerfile_validation_passed := some false }
  else if strIsEmpty cfg.clone_path then
    { initSt fs0 with
        dockerfile_updated := some false
        dockerfile_validation_passed := some false
        error := some "No clone path available for Dockerfile update" }
  else if strIsEmpty cfg.dockerfile_path then
    { initSt fs0 with
        dockerfile_updated := some false
        dockerfile_validation_passed := some false
        error := some "No Dockerfile path found" }
  else
    runLoop cfg validator transformer (cfg.max_retries + 2) 0 none (initSt fs0)

/-- Is an event a pass-through verbatim copy? -/
def Event.isPassThrough : Event → Bool
  | .passThroughWrite _ _ => true
  | _ => false

/-- Is an event a transformer invocation? -/
def Event.isTransformCall : Event → Bool
  | .transformCall _ _ => true
  | _ => false

/-- Is an event a validator invocation? -/
def Event.isValidateCall : Event → Bool
  | .validateCall _ => true
  | _ => false

/-- Number of pass-through copies in a trace. -/
def countPassThrough (tr : List Event) : Nat := tr.countP Event.isPassThrough

/-- Number of transformer invocations in a trace. -/
def countTransformCalls (tr : List Event) : Nat :=
  tr.countP Event.isTransformCall

/-- Number of validator invocations in a trace. -/
def countValidateCalls (tr : List Event) : Nat := tr.countP Event.isValidateCall

/-- Number of successful reads of a given path in a trace. -/
def countReadsOf (tr : List Event) (p : String) : Nat :=
  tr.countP (fun e =>
    match e with
    | .readFile q _ => q == p
    | _ => false)

/-- A transformer oracle that always succeeds, returning `t content verr`. -/
def pureTransform (t : String → Option String → String) : TransformOracle :=
  fun content _ _ verr => Except.ok (t content verr)

/-- A single-stage Dockerfile used as concrete original content. -/
def demoOrig : String := "FROM base AS build\nRUN make"

/-- A multi-stage Dockerfile used as concrete content. -/
def demoMulti : String :=
  "FROM base AS build\nRUN make\nFROM runtime\nCOPY --from=build /out /app"

/-- A concrete configuration: clone at `/repo`, Dockerfile at the root, no
explicit bake path, default retry budget 2. -/
def demoCfg : Config :=
  { clone_path := "/repo", dockerfile_path := "Dockerfile",
    build_platform := "java-gradle", build_as_config := none,
    docker_bake_file_path := none, max_retries := 2 }

/-- A concrete file system holding the original Dockerfile and the bake
file. -/
def demoFs : String → Option String := fun p =>
  if p = "/repo/Dockerfile" then some demoOrig
  else if p = "/repo/docker-argo-bake.hcl" then some "target app" else none

/-- Like `demoFs` but the original Dockerfile is already multi-stage. -/
def demoMultiFs : String → Option String := fun p =>
  if p = "/repo/Dockerfile" then some demoMulti
  else if p = "/repo/docker-argo-bake.hcl" then some "target app" else none

/-- Like `demoFs` but with no bake file anywhere. -/
def demoNoBakeFs : String → Option String := fun p =>
  if p = "/repo/Dockerfile" then some demoOrig else none

/-- Invariant holding between iterations of a run over `demoCfg`/`demoFs`
once the `-argo` variant exists: original and bake files are intact, the
variant path is recorded, and the variant file is present. -/
def DemoInv (st : St) : Prop :=
  st.fs "/repo/Dockerfile" = some demoOrig ∧
  st.fs "/repo/docker-argo-bake.hcl" = some "target app" ∧
  st.dockerfile_argo_path = some "Dockerfile-argo" ∧
  ∃ w, st.fs "/repo/Dockerfile-argo" = some w

/-- A validator whose subprocess always exits 1 with stderr text `boom`. -/
def alwaysFailV : Validator := fun _ => .exited 1 "boom" ""

/-- A validator whose subprocess always exits 0. -/
def passV : Validator := fun _ => .exited 0 "" ""

/-- A validator failing on the first call (non-empty stderr), passing
afterwards. -/
def failOnceV : Validator := fun n =>
  if n = 0 then .exited 1 "e1" "" else .exited 0 "" ""

/-- A validator failing on the first call with EMPTY stderr and stdout,
passing afterwards. -/
def emptyFailV : Validator := fun n =>
  if n = 0 then .exited 1 "" "" else .exited 0 "" ""

/-- A validator timing out on the first call, passing afterwards. -/
def timeoutOnceV : Validator := fun n =>
  if n = 0 then .timeout else .exited 0 "" ""

/-- A validator missing its executable on the first call, passing
afterwards. -/
def fnfOnceV : Validator := fun n =>
  if n = 0 then .toolNotFound else .exited 0 "" ""

/-- A validator whose subprocess always raises an unexpected exception. -/
def otherErrV : Validator := fun _ => .otherError "kaput"

/-- A transformer oracle that always returns the fixed multi-stage text. -/
def okTransform : TransformOracle := fun _ _ _ _ => .ok demoMulti

/-- A transformer oracle that always raises. -/
def errTransform : TransformOracle := fun _ _ _ _ => .error "rate limited"

/-- Like `demoFs` but the `-argo` variant file already exists. -/
def demoFs2 : String → Option String := fun p =>
  if p = "/repo/Dockerfile" then some demoOrig
  else if p = "/repo/Dockerfile-argo" then some demoOrig
  else if p = "/repo/docker-argo-bake.hcl" then some "target app" else none

/-- An entry state whose variant path is already recorded, over `demoFs2`. -/
def demoArgoSt : St :=
  { initSt demoFs2 with dockerfile_argo_path := some "Dockerfile-argo" }

/-- An entry state whose variant path is recorded but whose file system has
no bake file. -/
def demoNoBakeSt : St :=
  { initSt demoNoBakeFs with dockerfile_argo_path := some "Dockerfile-argo" }

/-- The state reached, in a run over `demoCfg`, after one attempt has read
the live file at `rPath` (content `c`), transformed it to `u`, and persisted
`u` at the variant path. -/
def demoAfterWrite (st : St) (rPath c u : String) (verr : Option String) :
    St :=
  { st with
      fs := updateFs st.fs "/repo/Dockerfile-argo" u
      dockerfile_argo_path := some "Dockerfile-argo"
      dockerfile_updated := some true
      trace := st.trace ++
        [Event.readFile rPath c, Event.transformCall c verr,
         Event.writeFile "/repo/Dockerfile-argo" u] }

/-! ## General lemmas about the loop -/

theorem runLoop_step (cfg : Config) (v : Validator) (t : TransformOracle)
    (fuel retry_count : Nat) (verr : Option String) (st : St) :
    runLoop cfg v t (fuel + 1) retry_count verr st =
      if retry_count ≤ cfg.max_retries then
        match loopBody cfg v t retry_count verr st with
        | .done st' => st'
        | .next verr' st' => runLoop cfg v t fuel (retry_count + 1) verr' st'
      else { st with dockerfile_validation_passed := some false } := rfl

theorem runLoop_next (cfg : Config) (v : Validator) (t : TransformOracle)
    (fuel retry_count : Nat) (verr verr' : Option String) (st st' : St)
    (h : retry_count ≤ cfg.max_retries)
    (hb : loopBody cfg v t retry_count verr st = .next verr' st') :
    runLoop cfg v t (fuel + 1) retry_count verr st =
      runLoop cfg v t fuel (retry_count + 1) verr' st' := by
  rw [runLoop_step, if_pos h, hb]

theorem runLoop_done (cfg : Config) (v : Validator) (t : TransformOracle)
    (fuel retry_count : Nat) (verr : Option String) (st st' : St)
    (h : retry_count ≤ cfg.max_retries)
    (hb : loopBody cfg v t retry_count verr st = .done st') :
    runLoop cfg v t (fuel + 1) retry_count verr st = st' := by
  rw [runLoop_step, if_pos h, hb]

theorem validateStep_pass (cfg : Config) (v : Validator) (retry_count : Nat)
    (st : St) (a bk : String)
    (hargo : st.dockerfile_argo_path = some a)
    (hbake : st.fs (bakeFilePath cfg a) = some bk)
    (hpass : (validationOutcomeResult (v st.vcalls)).1 = true) :
    validateStep cfg v retry_count st =
      .done { st with
        trace := st.trace ++ [Event.validateCall (bakeFilePath cfg a)]
        vcalls := st.vcalls + 1
        dockerfile_validation_passed := some true
        dockerfile_validation_error := none
        dockerfile_validation_retry_count := retry_count } := by
  unfold validateStep
  rw [hargo]
  simp only [hbake, addEvent]
  rw [if_pos hpass, hargo]

theorem validateStep_fail_next (cfg : Config) (v : Validator)
    (retry_count : Nat) (st : St) (a bk : String)
    (hargo : st.dockerfile_argo_path = some a)
    (hbake : st.fs (bakeFilePath cfg a) = some bk)
    (hfail : (validationOutcomeResult (v st.vcalls)).1 = false)
    (hbud : retry_count + 1 ≤ cfg.max_retries) :
    validateStep cfg v retry_count st =
      .next ((validationOutcomeResult (v st.vcalls)).2)
        { st with
          trace := st.trace ++ [Event.validateCall (bakeFilePath cfg a)]
          vcalls := st.vcalls + 1
          dockerfile_validation_retry_count := retry_count + 1
          dockerfile_validation_error :=
            (validationOutcomeResult (v st.vcalls)).2 } := by
  unfold validateStep
  rw [hargo]
  simp only [hbake, addEvent]
  rw [if_neg (by simp [hfail]), if_neg (by omega), hargo]

theorem validateStep_fail_done (cfg : Config) (v : Validator)
    (retry_count : Nat) (st : St) (a bk : String)
    (hargo : st.dockerfile_argo_path = some a)
    (hbake : st.fs (bakeFilePath cfg a) = some bk)
    (hfail : (validationOutcomeResult (v st.vcalls)).1 = false)
    (hbud : cfg.max_retries < retry_count + 1) :
    validateStep cfg v retry_count st =
      .done { st with
        trace := st.trace ++ [Event.validateCall (bakeFilePath cfg a)]
        vcalls := st.vcalls + 1
        dockerfile_validation_retry_count := retry_count + 1
        dockerfile_validation_error := (validationOutcomeResult (v st.vcalls)).2
        dockerfile_validation_passed := some false } := by
  unfold validateStep
  rw [hargo]
  simp only [hbake, addEvent]
  rw [if_neg (by simp [hfail]), if_pos hbud, hargo]

theorem validateStep_noBake (cfg : Config) (v : Validator) (retry_count : Nat)
    (st : St) (a : String)
    (hargo : st.dockerfile_argo_path = some a)
    (hbake : st.fs (bakeFilePath cfg a) = none) :
    validateStep cfg v retry_count st =
      .done { st with
        dockerfile_validation_passed := some false
        dockerfile_validation_error :=
          some ("Docker bake file not found at " ++
            relTo cfg.clone_path (bakeFilePath cfg a)) } := by
  unfold validateStep
  rw [hargo]
  simp only [hbake]

theorem validateStep_noArgo (cfg : Config) (v : Validator) (rc : Nat)
    (st : St) (hargo : st.dockerfile_argo_path = none) :
    validateStep cfg v rc st =
      .done { st with
        dockerfile_validation_passed := some false
        dockerfile_validation_error :=
          some "No Dockerfile-argo path found for validation" } := by
  unfold validateStep
  rw [hargo]

theorem validateStep_trace_sub (cfg : Config) (v : Validator) (rc : Nat)
    (st : St) :
    ((validateStep cfg v rc st).st).trace = st.trace ∨
    ∃ p, ((validateStep cfg v rc st).st).trace =
      st.trace ++ [Event.validateCall p] := by
  cases hA : st.dockerfile_argo_path with
  | none => rw [validateStep_noArgo cfg v rc st hA]; exact Or.inl rfl
  | some a =>
    cases hB : st.fs (bakeFilePath cfg a) with
    | none => rw [validateStep_noBake cfg v rc st a hA hB]; exact Or.inl rfl
    | some b =>
      by_cases hv : (validationOutcomeResult (v st.vcalls)).1 = true
      · rw [validateStep_pass cfg v rc st a b hA hB hv]
        exact Or.inr ⟨_, rfl⟩
      · rw [Bool.not_eq_true] at hv
        by_cases hbud : cfg.max_retries < rc + 1
        · rw [validateStep_fail_done cfg v rc st a b hA hB hv hbud]
          exact Or.inr ⟨_, rfl⟩
        · rw [validateStep_fail_next cfg v rc st a b hA hB hv (by omega)]
          exact Or.inr ⟨_, rfl⟩

theorem countPT_validateStep (cfg : Config) (v : Validator) (rc : Nat)
    (st : St) :
    countPassThrough ((validateStep cfg v rc st).st).trace
      = countPassThrough st.trace := by
  rcases validateStep_trace_sub cfg v rc st with h | ⟨p, h⟩ <;>
    simp [h, countPassThrough, List.countP_append, Event.isPassThrough]

theorem countTC_validateStep (cfg : Config) (v : Validator) (rc : Nat)
    (st : St) :
    countTransformCalls ((validateStep cfg v rc st).st).trace
      = countTransformCalls st.trace := by
  rcases validateStep_trace_sub cfg v rc st with h | ⟨p, h⟩ <;>
    simp [h, countTransformCalls, List.countP_append, Event.isTransformCall]

theorem loopBody_noRead (cfg : Config) (v : Validator) (t : TransformOracle)
    (rc : Nat) (verr : Option String) (st : St)
    (hread : st.fs (readTarget cfg rc verr st) = none) :
    loopBody cfg v t rc verr st =
      .done { st with
        dockerfile_updated := some false
        dockerfile_validation_passed := some false
        error := some ("Dockerfile not found at " ++
          readTarget cfg rc verr st) } := by
  simp only [loopBody, hread]

theorem loopBody_passThrough_eq (cfg : Config) (v : Validator)
    (t : TransformOracle) (verr : Option String) (st : St) (c : String)
    (hread : st.fs (readTarget cfg 0 verr st) = some c)
    (hm : is_multi_stage_dockerfile c = true)
    (hv : truthy verr = false) :
    loopBody cfg v t 0 verr st =
      validateStep cfg v 0
        (passThroughStep cfg
          (addEvent st (.readFile (readTarget cfg 0 verr st) c)) c) := by
  simp only [loopBody, hread]
  rw [if_pos (by simp [hm, hv])]

theorem loopBody_transform_eq (cfg : Config) (v : Validator)
    (t : TransformOracle) (rc : Nat) (verr : Option String) (st : St)
    (c : String)
    (hread : st.fs (readTarget cfg rc verr st) = some c)
    (hguard : ¬(rc = 0 ∧ is_multi_stage_dockerfile c = true ∧
      ¬ truthy verr = true)) :
    loopBody cfg v t rc verr st =
      (let st2 := addEvent
        (addEvent st (.readFile (readTarget cfg rc verr st) c))
        (.transformCall c verr)
      match t c cfg.build_platform cfg.build_as_config verr with
      | .error e =>
          .done { st2 with
            dockerfile_updated := some false
            dockerfile_validation_passed := some false
            error := some ("Failed to convert Dockerfile using LLM: " ++ e) }
      | .ok u =>
          validateStep cfg v rc
            (writeStep cfg rc verr st2 (readTarget cfg rc verr st) u)) := by
  simp only [loopBody, hread]
  rw [if_neg hguard]

theorem countPT_loopBody_ge1 (cfg : Config) (v : Validator)
    (t : TransformOracle) (rc : Nat) (verr : Option String) (st : St)
    (h1 : 1 ≤ rc) :
    countPassThrough ((loopBody cfg v t rc verr st).st).trace
      = countPassThrough st.trace := by
  cases hr : st.fs (readTarget cfg rc verr st) with
  | none => rw [loopBody_noRead cfg v t rc verr st hr]; rfl
  | some c =>
    rw [loopBody_transform_eq cfg v t rc verr st c hr
      (by rintro ⟨h0, -⟩; omega)]
    cases ht : t c cfg.build_platform cfg.build_as_config verr with
    | error e =>
        simp [ht, BodyResult.st, addEvent, countPassThrough,
          List.countP_append, Event.isPassThrough]
    | ok u =>
        simp only [ht]
        rw [countPT_validateStep]
        unfold writeStep
        split <;>
          simp [addEvent, countPassThrough, List.countP_append,
            Event.isPassThrough]

theorem countTC_loopBody_ge1 (cfg : Config) (v : Validator)
    (t : TransformOracle) (rc : Nat) (verr : Option String) (st : St)
    (c : String) (h1 : 1 ≤ rc)
    (hread : st.fs (readTarget cfg rc verr st) = some c) :
    countTransformCalls ((loopBody cfg v t rc verr st).st).trace
      = countTransformCalls st.trace + 1 := by
  rw [loopBody_transform_eq cfg v t rc verr st c hread
    (by rintro ⟨h0, -⟩; omega)]
  cases ht : t c cfg.build_platform cfg.build_as_config verr with
  | error e =>
      simp [ht, BodyResult.st, addEvent, countTransformCalls,
        List.countP_append, Event.isTransformCall]
  | ok u =>
      simp only [ht]
      rw [countTC_validateStep]
      unfold writeStep
      split <;>
        simp [addEvent, countTransformCalls, List.countP_append,
          Event.isTransformCall]

theorem countPT_runLoop_ge1 (cfg : Config) (v : Validator)
    (t : TransformOracle) :
    ∀ (fuel rc : Nat) (verr : Option String) (st : St), 1 ≤ rc →
    countPassThrough (runLoop cfg v t fuel rc verr st).trace
      = countPassThrough st.trace := by
  intro fuel
  induction fuel with
  | zero => intro rc verr st h; rfl
  | succ n ih =>
    intro rc verr st h
    rw [runLoop_step]
    split
    · cases hb : loopBody cfg v t rc verr st with
      | done st' =>
          have hc := countPT_loopBody_ge1 cfg v t rc verr st h
          rw [hb] at hc
          simpa using hc
      | next ve st' =>
          rw [ih (rc + 1) ve st' (by omega)]
          have hc := countPT_loopBody_ge1 cfg v t rc verr st h
          rw [hb] at hc
          simpa using hc
    · rfl

theorem countPT_loopBody0 (cfg : Config) (v : Validator) (t : TransformOracle)
    (st : St) (c : String)
    (hread : st.fs (joinPath cfg.clone_path cfg.dockerfile_path) = some c) :
    countPassThrough ((loopBody cfg v t 0 none st).st).trace
      = countPassThrough st.trace +
        (if is_multi_stage_dockerfile c then 1 else 0) := by
  have hrt : readTarget cfg 0 none st =
      joinPath cfg.clone_path cfg.dockerfile_path := by
    unfold readTarget
    rw [if_neg (by rintro ⟨h0, -⟩; omega)]
  by_cases hm : is_multi_stage_dockerfile c = true
  · rw [loopBody_passThrough_eq cfg v t none st c (hrt ▸ hread) hm rfl]
    rw [countPT_validateStep]
    unfold passThroughStep
    simp [addEvent, countPassThrough, List.countP_append, Event.isPassThrough,
      hm]
  · rw [loopBody_transform_eq cfg v t 0 none st c (hrt ▸ hread)
      (by rintro ⟨-, h2, -⟩; exact hm h2)]
    cases ht : t c cfg.build_platform cfg.build_as_config none with
    | error e =>
        simp [ht, BodyResult.st, addEvent, countPassThrough,
          List.countP_append, Event.isPassThrough, hm]
    | ok u =>
        simp only [ht]
        rw [countPT_validateStep]
        unfold writeStep
        split <;>
          simp [addEvent, countPassThrough, List.countP_append,
            Event.isPassThrough, hm]

/-! ## Lemmas about the concrete demo scenario -/

theorem updateFs_ne (fs : String → Option String) (p c q : String)
    (h : ¬ q = p) : updateFs fs p c q = fs q := by
  simp [updateFs, h]

theorem demo_relTo_argo : relTo "/repo" "/repo/Dockerfile-argo" =
    "Dockerfile-argo" := by decide

theorem demo_relTo_argo_cfg : relTo demoCfg.clone_path "/repo/Dockerfile-argo"
    = "Dockerfile-argo" := by decide

theorem demo_wp : write_dockerfile_argo_path "/repo/Dockerfile" =
    "/repo/Dockerfile-argo" := by decide

theorem demo_bake : bakeFilePath demoCfg "Dockerfile-argo" =
    "/repo/docker-argo-bake.hcl" := by decide

theorem demo_not_multi : is_multi_stage_dockerfile demoOrig = false := by
  decide

theorem demo_body_ge1 (v : Validator) (t : String → Option String → String)
    (rc : Nat) (verr : Option String) (st : St)
    (h1 : 1 ≤ rc) (hInv : DemoInv st) :
    ∃ rPath c, loopBody demoCfg v (pureTransform t) rc verr st =
      validateStep demoCfg v rc
        (demoAfterWrite st rPath c (t c verr) verr) := by
  obtain ⟨hOrig, hBake, hArgo, w, hW⟩ := hInv
  by_cases htv : truthy verr = true
  · have hrt : readTarget demoCfg rc verr st = "/repo/Dockerfile-argo" := by
      unfold readTarget
      rw [if_pos ⟨by omega, htv⟩, hArgo]
      rfl
    refine ⟨"/repo/Dockerfile-argo", w, ?_⟩
    rw [loopBody_transform_eq demoCfg v (pureTransform t) rc verr st w
      (by rw [hrt]; exact hW) (by rintro ⟨h0, -⟩; omega)]
    simp only [pureTransform]
    rw [hrt]
    unfold writeStep
    rw [if_pos ⟨by omega, htv⟩]
    congr 1
    simp [demoAfterWrite, addEvent, demo_relTo_argo_cfg]
  · have hrt : readTarget demoCfg rc verr st = "/repo/Dockerfile" := by
      unfold readTarget
      rw [if_neg (by rintro ⟨-, h⟩; exact htv h)]
      rfl
    refine ⟨"/repo/Dockerfile", demoOrig, ?_⟩
    rw [loopBody_transform_eq demoCfg v (pureTransform t) rc verr st demoOrig
      (by rw [hrt]; exact hOrig) (by rintro ⟨h0, -⟩; omega)]
    simp only [pureTransform]
    rw [hrt]
    unfold writeStep
    rw [if_neg (by rintro ⟨-, h⟩; exact htv h)]
    rw [demo_wp]
    congr 1
    simp [demoAfterWrite, addEvent, demo_relTo_argo_cfg]

theorem demoAfterWrite_bake (st : St) (rPath c u : String)
    (verr : Option String)
    (hBake : st.fs "/repo/docker-argo-bake.hcl" = some "target app") :
    (demoAfterWrite st rPath c u verr).fs
      (bakeFilePath demoCfg "Dockerfile-argo") = some "target app" := by
  rw [demo_bake]
  show updateFs st.fs "/repo/Dockerfile-argo" u "/repo/docker-argo-bake.hcl"
    = some "target app"
  rw [updateFs_ne st.fs _ u _ (by decide)]
  exact hBake

theorem demoInv_afterWrite (st : St) (rPath c u : String)
    (verr : Option String) (hInv : DemoInv st) :
    DemoInv (demoAfterWrite st rPath c u verr) := by
  obtain ⟨hOrig, hBake, hArgo, w, hW⟩ := hInv
  refine ⟨?_, ?_, rfl, u, ?_⟩
  · show updateFs st.fs "/repo/Dockerfile-argo" u "/repo/Dockerfile" = _
    rw [updateFs_ne st.fs _ u _ (by decide)]
    exact hOrig
  · show updateFs st.fs "/repo/Dockerfile-argo" u "/repo/docker-argo-bake.hcl"
      = _
    rw [updateFs_ne st.fs _ u _ (by decide)]
    exact hBake
  · simp [demoAfterWrite, updateFs]

theorem demo_body_fail_next (v : Validator)
    (t : String → Option String → String) (rc : Nat) (verr : Option String)
    (st : St) (h1 : 1 ≤ rc) (hbud : rc + 1 ≤ 2)
    (hfail : (validationOutcomeResult (v st.vcalls)).1 = false)
    (hInv : DemoInv st) :
    ∃ st', loopBody demoCfg v (pureTransform t) rc verr st =
        .next ((validationOutcomeResult (v st.vcalls)).2) st' ∧
      DemoInv st' ∧
      countValidateCalls st'.trace = countValidateCalls st.trace + 1 ∧
      st'.vcalls = st.vcalls + 1 ∧
      st'.dockerfile_validation_retry_count = rc + 1 := by
  obtain ⟨rPath, c, heq⟩ := demo_body_ge1 v t rc verr st h1 hInv
  rw [heq]
  rw [validateStep_fail_next demoCfg v rc
    (demoAfterWrite st rPath c (t c verr) verr) "Dockerfile-argo" "target app"
    rfl (demoAfterWrite_bake st rPath c (t c verr) verr hInv.2.1) hfail
    hbud]
  refine ⟨_, rfl, ?_, ?_, rfl, rfl⟩
  · obtain ⟨hOrig, hBake, hArgo, w, hW⟩ := demoInv_afterWrite st rPath c
      (t c verr) verr hInv
    exact ⟨hOrig, hBake, rfl, w, hW⟩
  · simp [demoAfterWrite, addEvent, countValidateCalls, List.countP_append,
      List.countP_cons, Event.isValidateCall]

theorem demo_body_fail_done (v : Validator)
    (t : String → Option String → String) (rc : Nat) (verr : Option String)
    (st : St) (h1 : 1 ≤ rc) (hbig : 2 < rc + 1)
    (hfail : (validationOutcomeResult (v st.vcalls)).1 = false)
    (hInv : DemoInv st) :
    ∃ st', loopBody demoCfg v (pureTransform t) rc verr st = .done st' ∧
      st'.dockerfile_validation_passed = some false ∧
      st'.dockerfile_validation_retry_count = rc + 1 ∧
      countValidateCalls st'.trace = countValidateCalls st.trace + 1 := by
  obtain ⟨rPath, c, heq⟩ := demo_body_ge1 v t rc verr st h1 hInv
  rw [heq]
  rw [validateStep_fail_done demoCfg v rc
    (demoAfterWrite st rPath c (t c verr) verr) "Dockerfile-argo" "target app"
    rfl (demoAfterWrite_bake st rPath c (t c verr) verr hInv.2.1) hfail
    hbig]
  refine ⟨_, rfl, rfl, rfl, ?_⟩
  simp [demoAfterWrite, addEvent, countValidateCalls, List.countP_append,
    List.countP_cons, Event.isValidateCall]

theorem demo_body_pass (v : Validator)
    (t : String → Option String → String) (rc : Nat) (verr : Option String)
    (st : St) (h1 : 1 ≤ rc)
    (hpass : (validationOutcomeResult (v st.vcalls)).1 = true)
    (hInv : DemoInv st) :
    ∃ st', loopBody demoCfg v (pureTransform t) rc verr st = .done st' ∧
      st'.dockerfile_validation_passed = some true ∧
      st'.dockerfile_validation_retry_count = rc ∧
      st'.dockerfile_validation_error = none ∧
      countValidateCalls st'.trace = countValidateCalls st.trace + 1 := by
  obtain ⟨rPath, c, heq⟩ := demo_body_ge1 v t rc verr st h1 hInv
  rw [heq]
  rw [validateStep_pass demoCfg v rc
    (demoAfterWrite st rPath c (t c verr) verr) "Dockerfile-argo" "target app"
    rfl (demoAfterWrite_bake st rPath c (t c verr) verr hInv.2.1) hpass]
  refine ⟨_, rfl, rfl, rfl, rfl, ?_⟩
  simp [demoAfterWrite, addEvent, countValidateCalls, List.countP_append,
    List.countP_cons, Event.isValidateCall]

theorem demo_body0 (v : Validator) (t : String → Option String → String) :
    loopBody demoCfg v (pureTransform t) 0 none (initSt demoFs) =
      validateStep demoCfg v 0
        (demoAfterWrite (initSt demoFs) "/repo/Dockerfile" demoOrig
          (t demoOrig none) none) := by
  rfl

theorem demo_body0_fail (v : Validator)
    (t : String → Option String → String)
    (hfail : (validationOutcomeResult (v 0)).1 = false) :
    ∃ st', loopBody demoCfg v (pureTransform t) 0 none (initSt demoFs) =
        .next ((validationOutcomeResult (v 0)).2) st' ∧
      DemoInv st' ∧ countValidateCalls st'.trace = 1 ∧ st'.vcalls = 1 ∧
      st'.dockerfile_validation_retry_count = 1 := by
  rw [demo_body0 v t]
  rw [validateStep_fail_next demoCfg v 0
    (demoAfterWrite (initSt demoFs) "/repo/Dockerfile" demoOrig
      (t demoOrig none) none) "Dockerfile-argo" "target app"
    rfl (demoAfterWrite_bake _ _ _ _ _ rfl) hfail (by decide)]
  refine ⟨_, rfl, ?_, ?_, rfl, rfl⟩
  · refine ⟨?_, ?_, rfl, t demoOrig none, ?_⟩ <;>
      simp [demoAfterWrite, initSt, updateFs, demoFs]
  · simp [demoAfterWrite, addEvent, countValidateCalls, List.countP_append,
      List.countP_cons, Event.isValidateCall, initSt]

theorem demo_node_eq (v : Validator) (tt : TransformOracle)
    (fs0 : String → Option String) :
    create_and_validate_dockerfile_node demoCfg v tt fs0 =
      runLoop demoCfg v tt 4 0 none (initSt fs0) := by
  unfold create_and_validate_dockerfile_node
  rw [if_neg (by decide), if_neg (by decide), if_neg (by decide)]
  rfl

/-! ## Lemmas about the Shape Inspector counter -/

theorem foldl_count_if (p : String → Bool) :
    ∀ (lines : List String) (n : Nat),
    lines.foldl (fun acc line => if p line then acc + 1 else acc) n
      = n + lines.countP p := by
  intro lines
  induction lines with
  | nil => intro n; simp
  | cons l ls ih =>
      intro n
      rw [List.foldl_cons, List.countP_cons]
      by_cases h : p l = true
      · rw [if_pos h, ih, if_pos h]; omega
      · rw [if_neg h, ih, if_neg h]; omega

theorem is_multi_eq_countP (content : String) :
    is_multi_stage_dockerfile content =
      decide (1 < (pySplit content '\n').countP fromKeywordLine) := by
  have hfun : (fun (acc : Nat) (line : String) =>
      let stripped := pyStrip line
      if !strIsEmpty stripped && !(pyStartsWith stripped "#") then
        if pyStartsWith (pyUpper stripped) "FROM" then acc + 1 else acc
      else acc) =
      fun acc line => if fromKeywordLine line then acc + 1 else acc := by
    funext acc line
    simp only [fromKeywordLine]
    by_cases hb : (!strIsEmpty (pyStrip line) &&
        !(pyStartsWith (pyStrip line) "#")) = true <;>
      by_cases hd : pyStartsWith (pyUpper (pyStrip line)) "FROM" = true <;>
        simp [hb, hd]
  simp only [is_multi_stage_dockerfile]
  rw [hfun, foldl_count_if]
  simp

/-! ## Read/write target lemmas -/

theorem strIsEmpty_false_of_ne (e : String) (h : ¬ e = "") :
    strIsEmpty e = false := by
  cases e with
  | mk l =>
    cases l with
    | nil => exact absurd rfl h
    | cons a as => rfl

theorem readTarget_attempt0 (cfg : Config) (verr : Option String) (st : St) :
    readTarget cfg 0 verr st = joinPath cfg.clone_path cfg.dockerfile_path := by
  unfold readTarget
  rw [if_neg (by rintro ⟨h0, -⟩; omega)]

theorem readTarget_retry (cfg : Config) (rc : Nat) (e a : String) (st : St)
    (h1 : 1 ≤ rc) (hargo : st.dockerfile_argo_path = some a)
    (hne : ¬ e = "") :
    readTarget cfg rc (some e) st = joinPath cfg.clone_path a := by
  unfold readTarget
  rw [if_pos ⟨by omega, by simp [truthy, strIsEmpty_false_of_ne e hne]⟩,
    hargo]

theorem writeStep_trace_eq (cfg : Config) (rc : Nat) (verr : Option String)
    (st : St) (full u : String) :
    (writeStep cfg rc verr st full u).trace =
      st.trace ++ [Event.writeFile
        (if 0 < rc ∧ truthy verr = true then full
         else write_dockerfile_argo_path full) u] := by
  unfold writeStep
  by_cases h : 0 < rc ∧ truthy verr = true
  · simp only [if_pos h, addEvent]
  · simp only [if_neg h, addEvent]

theorem writeStep_trace_mono (cfg : Config) (rc : Nat) (verr : Option String)
    (st : St) (full u : String) (e : Event) (he : e ∈ st.trace) :
    e ∈ (writeStep cfg rc verr st full u).trace := by
  rw [writeStep_trace_eq]
  simp [he]

theorem validateStep_trace_mono (cfg : Config) (v : Validator) (rc : Nat)
    (st : St) (e : Event) (he : e ∈ st.trace) :
    e ∈ ((validateStep cfg v rc st).st).trace := by
  rcases validateStep_trace_sub cfg v rc st with h | ⟨p, h⟩ <;> rw [h] <;>
    simp [he]

theorem validate_write_writes (cfg : Config) (v : Validator) (rc : Nat)
    (verr : Option String) (st2 : St) (full u p w : String)
    (hmem : Event.writeFile p w ∈
      ((validateStep cfg v rc (writeStep cfg rc verr st2 full u)).st).trace) :
    Event.writeFile p w ∈ st2.trace ∨
      p = (if 0 < rc ∧ truthy verr = true then full
        else write_dockerfile_argo_path full) := by
  rcases validateStep_trace_sub cfg v rc (writeStep cfg rc verr st2 full u)
      with hts | ⟨q, hts⟩
  · rw [hts, writeStep_trace_eq] at hmem
    simp only [List.mem_append, List.mem_singleton, Event.writeFile.injEq]
      at hmem
    rcases hmem with hmem | ⟨hp, -⟩
    · exact Or.inl hmem
    · exact Or.inr hp
  · rw [hts, writeStep_trace_eq] at hmem
    simp only [List.mem_append, List.mem_singleton, Event.writeFile.injEq]
      at hmem
    rcases hmem with (hmem | ⟨hp, -⟩) | hveq
    · exact Or.inl hmem
    · exact Or.inr hp
    · exact absurd hveq (by simp)

/-! ## Claim theorems -/

/-- C4 (counterexample): the claim reads the Shape Inspector as counting
lines whose case-insensitive LEADING TOKEN equals the keyword, but the code
counts lines that merely START WITH the keyword: on
`"FROMAGE a\nFROM b"` only one leading token equals `FROM`, so the claim
predicts `false`, yet `is_multi_stage_dockerfile` returns `true`. -/
theorem C4_counterexample :
    is_multi_stage_dockerfile "FROMAGE a\nFROM b" = true ∧
    isTargetShapeSpec "FROMAGE a\nFROM b" = false ∧
    countFromKeywordLines "FROMAGE a\nFROM b" = 2 := by decide

/-- C4 (amended): for every input text, `is_multi_stage_dockerfile` returns
true iff the number of lines — after ignoring blank lines and lines whose
first non-whitespace character is `#` — whose stripped text case-insensitively
STARTS WITH `FROM` is strictly greater than one; it is total (no error
conditions). -/
theorem C4_amended_thm (content : String) :
    is_multi_stage_dockerfile content = true ↔
      1 < countFromKeywordLines content := by
  rw [is_multi_eq_countP]
  unfold countFromKeywordLines
  rw [List.countP_eq_length_filter]
  simp

/-- C5 (counterexample): on the transform path the variant file name is the
FIXED name `Dockerfile-argo` — `write_dockerfile_argo` discards the original
file name entirely, so `deriveVariantPath("a/b/Foo.txt")` does not carry the
suffix-marked original filename `Foo-argo.txt` as the claim states. -/
theorem C5_counterexample :
    write_dockerfile_argo_path "a/b/Foo.txt" = "a/b/Dockerfile-argo" ∧
    ¬ write_dockerfile_argo_path "a/b/Foo.txt" = "a/b/Foo-argo.txt" ∧
    pathName (write_dockerfile_argo_path "a/b/Foo.txt") = "Dockerfile-argo" := by
  decide

/-- C5 (amended): the code has TWO derivations.  The pass-through branch
derivation (`deriveArgoRelPath`) behaves as the claim states: it preserves
the parent directory and inserts `-argo` before the extension (or appends it
when there is none).  The transform-path derivation
(`write_dockerfile_argo_path`) preserves the parent directory but always uses
the fixed file name `Dockerfile-argo`, regardless of the original name.
Both are deterministic pure functions. -/
theorem C5_amended_thm :
    deriveArgoRelPath "a/b/Foo.txt" = "a/b/Foo-argo.txt" ∧
    deriveArgoRelPath "a/b/Foo" = "a/b/Foo-argo" ∧
    pathParent (deriveArgoRelPath "a/b/Foo.txt") = "a/b" ∧
    pathParent (deriveArgoRelPath "a/b/Foo") = "a/b" ∧
    write_dockerfile_argo_path "a/b/Foo.txt" = "a/b/Dockerfile-argo" ∧
    write_dockerfile_argo_path "a/b/Foo" = "a/b/Dockerfile-argo" ∧
    pathParent (write_dockerfile_argo_path "a/b/Foo.txt") = "a/b" := by
  decide

/-- C1 (counterexample): with `max_retries = 2` and an always-failing
validator the loop does make exactly 3 validation calls and end with
`passed = false`, but the final stored
`dockerfile_validation_retry_count` is 3, not 2 as the claim states — the
counter is incremented once more on the final, budget-exceeding failure
(lines 268-269) before the loop returns. -/
theorem C1_counterexample :
    countValidateCalls (create_and_validate_dockerfile_node demoCfg
      alwaysFailV okTransform demoFs).trace = 3 ∧
    (create_and_validate_dockerfile_node demoCfg alwaysFailV okTransform
      demoFs).dockerfile_validation_passed = some false ∧
    (create_and_validate_dockerfile_node demoCfg alwaysFailV okTransform
      demoFs).dockerfile_validation_retry_count = 3 ∧
    ¬ (create_and_validate_dockerfile_node demoCfg alwaysFailV okTransform
      demoFs).dockerfile_validation_retry_count = 2 := by decide

/-- C1 (amended): for every run of the retry loop with `max_retries = 2` in
which reads and transformation calls succeed and the validator reports
failure on every invocation, the loop performs exactly 3 validation calls
(attempts 0, 1 and 2), terminates with `passed = false`, and the final
stored attempt counter `dockerfile_validation_retry_count` equals 3. -/
theorem C1_amended_thm (v : Validator) (t : String → Option String → String)
    (hfail : ∀ n, (validationOutcomeResult (v n)).1 = false) :
    countValidateCalls (create_and_validate_dockerfile_node demoCfg v
      (pureTransform t) demoFs).trace = 3 ∧
    (create_and_validate_dockerfile_node demoCfg v (pureTransform t)
      demoFs).dockerfile_validation_passed = some false ∧
    (create_and_validate_dockerfile_node demoCfg v (pureTransform t)
      demoFs).dockerfile_validation_retry_count = 3 := by
  obtain ⟨st1, hb0, hInv1, hcv1, hvc1, hrc1⟩ := demo_body0_fail v t (hfail 0)
  obtain ⟨st2, hb1, hInv2, hcv2, hvc2, hrc2⟩ :=
    demo_body_fail_next v t 1 ((validationOutcomeResult (v 0)).2) st1
      (by omega) (by omega) (hfail st1.vcalls) hInv1
  obtain ⟨st3, hb2, hp3, hrc3, hcv3⟩ :=
    demo_body_fail_done v t 2 ((validationOutcomeResult (v st1.vcalls)).2) st2
      (by omega) (by omega) (hfail st2.vcalls) hInv2
  have e0 := demo_node_eq v (pureTransform t) demoFs
  have e1 : runLoop demoCfg v (pureTransform t) 4 0 none (initSt demoFs) =
      runLoop demoCfg v (pureTransform t) 3 1
        ((validationOutcomeResult (v 0)).2) st1 :=
    runLoop_next _ _ _ 3 0 none _ _ _ (by decide) hb0
  have e2 : runLoop demoCfg v (pureTransform t) 3 1
      ((validationOutcomeResult (v 0)).2) st1 =
      runLoop demoCfg v (pureTransform t) 2 2
        ((validationOutcomeResult (v st1.vcalls)).2) st2 :=
    runLoop_next _ _ _ 2 1 _ _ _ _ (by decide) hb1
  have e3 : runLoop demoCfg v (pureTransform t) 2 2
      ((validationOutcomeResult (v st1.vcalls)).2) st2 = st3 :=
    runLoop_done _ _ _ 1 2 _ _ _ (by decide) hb2
  have efin : create_and_validate_dockerfile_node demoCfg v
      (pureTransform t) demoFs = st3 := by
    rw [e0, e1, e2, e3]
  rw [efin]
  refine ⟨?_, hp3, hrc3⟩
  rw [hcv3, hcv2, hcv1]

/-- C1 (witness): the amended theorem instantiated with the concrete
always-failing validator and a constant transformer. -/
theorem C1_witness :
    countValidateCalls (create_and_validate_dockerfile_node demoCfg
      alwaysFailV (pureTransform (fun _ _ => demoMulti)) demoFs).trace = 3 ∧
    (create_and_validate_dockerfile_node demoCfg alwaysFailV
      (pureTransform (fun _ _ => demoMulti))
      demoFs).dockerfile_validation_passed = some false ∧
    (create_and_validate_dockerfile_node demoCfg alwaysFailV
      (pureTransform (fun _ _ => demoMulti))
      demoFs).dockerfile_validation_retry_count = 3 :=
  C1_amended_thm alwaysFailV (fun _ _ => demoMulti) (fun _ => rfl)

/-- C9 (confirmed): whenever the validator reports success, the validation
step returns (terminal) with `passed = true`, diagnostics cleared, and the
attempt counter frozen at its current value; and in a run over the demo
scenario with a validator that fails exactly once (on call 0) and then
succeeds, the loop makes exactly 2 validation calls and ends with
`passed = true` and `dockerfile_validation_retry_count = 1`. -/
theorem C9_thm :
    (∀ (cfg : Config) (v : Validator) (rc : Nat) (st : St) (a bk : String),
      st.dockerfile_argo_path = some a →
      st.fs (bakeFilePath cfg a) = some bk →
      (validationOutcomeResult (v st.vcalls)).1 = true →
      (validateStep cfg v rc st).isDone = true ∧
      ((validateStep cfg v rc st).st).dockerfile_validation_passed
        = some true ∧
      ((validateStep cfg v rc st).st).dockerfile_validation_retry_count
        = rc ∧
      ((validateStep cfg v rc st).st).dockerfile_validation_error = none ∧
      countValidateCalls ((validateStep cfg v rc st).st).trace
        = countValidateCalls st.trace + 1) ∧
    (∀ (v : Validator) (t : String → Option String → String),
      (validationOutcomeResult (v 0)).1 = false →
      (∀ n, 1 ≤ n → (validationOutcomeResult (v n)).1 = true) →
      countValidateCalls (create_and_validate_dockerfile_node demoCfg v
        (pureTransform t) demoFs).trace = 2 ∧
      (create_and_validate_dockerfile_node demoCfg v (pureTransform t)
        demoFs).dockerfile_validation_passed = some true ∧
      (create_and_validate_dockerfile_node demoCfg v (pureTransform t)
        demoFs).dockerfile_validation_retry_count = 1) := by
  constructor
  · intro cfg v rc st a bk hargo hbake hpass
    rw [validateStep_pass cfg v rc st a bk hargo hbake hpass]
    refine ⟨rfl, rfl, rfl, rfl, ?_⟩
    simp [BodyResult.st, countValidateCalls, List.countP_append,
      List.countP_cons, Event.isValidateCall]
  · intro v t hfail0 hpass1
    obtain ⟨st1, hb0, hInv1, hcv1, hvc1, hrc1⟩ := demo_body0_fail v t hfail0
    obtain ⟨st2, hb1, hp2, hrc2, hve2, hcv2⟩ :=
      demo_body_pass v t 1 ((validationOutcomeResult (v 0)).2) st1
        (by omega) (by rw [hvc1]; exact hpass1 1 le_rfl) hInv1
    have e0 := demo_node_eq v (pureTransform t) demoFs
    have e1 : runLoop demoCfg v (pureTransform t) 4 0 none (initSt demoFs) =
        runLoop demoCfg v (pureTransform t) 3 1
          ((validationOutcomeResult (v 0)).2) st1 :=
      runLoop_next _ _ _ 3 0 none _ _ _ (by decide) hb0
    have e2 : runLoop demoCfg v (pureTransform t) 3 1
        ((validationOutcomeResult (v 0)).2) st1 = st2 :=
      runLoop_done _ _ _ 2 1 _ _ _ (by decide) hb1
    have efin : create_and_validate_dockerfile_node demoCfg v
        (pureTransform t) demoFs = st2 := by
      rw [e0, e1, e2]
    rw [efin]
    refine ⟨?_, hp2, hrc2⟩
    rw [hcv2, hcv1]

/-- C9 (witness): both parts instantiated — the general part at a state with
the variant path recorded over `demoFs2` and an always-passing validator,
the run part with the fail-once-then-pass validator. -/
theorem C9_witness :
    ((validateStep demoCfg passV 0 demoArgoSt).isDone = true ∧
     ((validateStep demoCfg passV 0 demoArgoSt).st).dockerfile_validation_passed
       = some true ∧
     ((validateStep demoCfg passV 0
       demoArgoSt).st).dockerfile_validation_retry_count = 0 ∧
     ((validateStep demoCfg passV 0 demoArgoSt).st).dockerfile_validation_error
       = none ∧
     countValidateCalls ((validateStep demoCfg passV 0 demoArgoSt).st).trace
       = countValidateCalls demoArgoSt.trace + 1) ∧
    (countValidateCalls (create_and_validate_dockerfile_node demoCfg failOnceV
      (pureTransform (fun _ _ => demoMulti)) demoFs).trace = 2 ∧
     (create_and_validate_dockerfile_node demoCfg failOnceV
       (pureTransform (fun _ _ => demoMulti))
       demoFs).dockerfile_validation_passed = some true ∧
     (create_and_validate_dockerfile_node demoCfg failOnceV
       (pureTransform (fun _ _ => demoMulti))
       demoFs).dockerfile_validation_retry_count = 1) :=
  ⟨C9_thm.1 demoCfg passV 0 demoArgoSt "Dockerfile-argo" "target app" rfl
      (by decide) rfl,
   C9_thm.2 failOnceV (fun _ _ => demoMulti) rfl
      (fun n hn => by
        have : ¬ n = 0 := by omega
        simp [failOnceV, this, validationOutcomeResult])⟩

/-- C2 (confirmed): over a whole fresh run (original readable with content
`c`), the pass-through verbatim copy happens exactly once when `c` already
has the target shape and never otherwise — so it is taken iff the attempt
counter is 0, no validation failure has occurred, and the Shape Inspector
reports the target shape, and at most once per loop execution; moreover no
iteration with `retry_count ≥ 1` ever takes it, and every such retry
iteration that reads content invokes the Transformer exactly once, even if
the content already has the target shape. -/
theorem C2_thm :
    (∀ (cfg : Config) (v : Validator) (tr : TransformOracle)
       (fs0 : String → Option String) (c : String),
      strIsEmpty cfg.build_platform = false →
      strIsEmpty cfg.clone_path = false →
      strIsEmpty cfg.dockerfile_path = false →
      fs0 (joinPath cfg.clone_path cfg.dockerfile_path) = some c →
      countPassThrough
        (create_and_validate_dockerfile_node cfg v tr fs0).trace
        = (if is_multi_stage_dockerfile c then 1 else 0)) ∧
    (∀ (cfg : Config) (v : Validator) (tr : TransformOracle) (rc : Nat)
       (verr : Option String) (st : St), 1 ≤ rc →
      countPassThrough ((loopBody cfg v tr rc verr st).st).trace
        = countPassThrough st.trace) ∧
    (∀ (cfg : Config) (v : Validator) (tr : TransformOracle) (rc : Nat)
       (verr : Option String) (st : St) (c : String), 1 ≤ rc →
      st.fs (readTarget cfg rc verr st) = some c →
      countTransformCalls ((loopBody cfg v tr rc verr st).st).trace
        = countTransformCalls st.trace + 1) := by
  refine ⟨?_, countPT_loopBody_ge1, countTC_loopBody_ge1⟩
  intro cfg v tr fs0 c hp hc hd hread
  unfold create_and_validate_dockerfile_node
  rw [if_neg (by simp [hp]), if_neg (by simp [hc]), if_neg (by simp [hd])]
  have hfuel : cfg.max_retries + 2 = (cfg.max_retries + 1) + 1 := rfl
  rw [hfuel, runLoop_step, if_pos (by omega)]
  cases hb : loopBody cfg v tr 0 none (initSt fs0) with
  | done st' =>
      have h0 := countPT_loopBody0 cfg v tr (initSt fs0) c hread
      rw [hb] at h0
      simpa [initSt, countPassThrough] using h0
  | next ve st' =>
      rw [countPT_runLoop_ge1 cfg v tr (cfg.max_retries + 1) 1 ve st'
        (by omega)]
      have h0 := countPT_loopBody0 cfg v tr (initSt fs0) c hread
      rw [hb] at h0
      simpa [initSt, countPassThrough] using h0

/-- C2 (witness): the run part at a demo run whose original description is
already multi-stage, the retry parts at concrete retry states. -/
theorem C2_witness :
    countPassThrough (create_and_validate_dockerfile_node demoCfg passV
      okTransform demoMultiFs).trace
      = (if is_multi_stage_dockerfile demoMulti then 1 else 0) ∧
    countPassThrough
      ((loopBody demoCfg passV okTransform 1 none (initSt demoFs)).st).trace
      = countPassThrough (initSt demoFs).trace ∧
    countTransformCalls
      ((loopBody demoCfg passV okTransform 1 (some "err") demoArgoSt).st).trace
      = countTransformCalls demoArgoSt.trace + 1 :=
  ⟨C2_thm.1 demoCfg passV okTransform demoMultiFs demoMulti (by decide)
      (by decide) (by decide) (by decide),
   C2_thm.2.1 demoCfg passV okTransform 1 none (initSt demoFs) le_rfl,
   C2_thm.2.2 demoCfg passV okTransform 1 (some "err") demoArgoSt demoOrig
      le_rfl (by decide)⟩

/-- C6 (confirmed): when the bake file is missing at resolution time the
validation step returns immediately (for ANY remaining retry budget — the
attempt counter is not consulted) with `passed = false`, the
bake-file-not-found diagnostic, no validator invocation, and the stored
attempt counter unchanged; and a whole demo run without a bake file makes 0
validation calls, 1 transformation call, and ends `passed = false`. -/
theorem C6_thm :
    (∀ (cfg : Config) (v : Validator) (rc : Nat) (st : St) (a : String),
      st.dockerfile_argo_path = some a →
      st.fs (bakeFilePath cfg a) = none →
      (validateStep cfg v rc st).isDone = true ∧
      ((validateStep cfg v rc st).st).dockerfile_validation_passed
        = some false ∧
      ((validateStep cfg v rc st).st).dockerfile_validation_error
        = some ("Docker bake file not found at " ++
            relTo cfg.clone_path (bakeFilePath cfg a)) ∧
      countValidateCalls ((validateStep cfg v rc st).st).trace
        = countValidateCalls st.trace ∧
      ((validateStep cfg v rc st).st).dockerfile_validation_retry_count
        = st.dockerfile_validation_retry_count) ∧
    (countValidateCalls (create_and_validate_dockerfile_node demoCfg
      alwaysFailV okTransform demoNoBakeFs).trace = 0 ∧
     (create_and_validate_dockerfile_node demoCfg alwaysFailV okTransform
       demoNoBakeFs).dockerfile_validation_passed = some false ∧
     countTransformCalls (create_and_validate_dockerfile_node demoCfg
       alwaysFailV okTransform demoNoBakeFs).trace = 1) := by
  constructor
  · intro cfg v rc st a hargo hbake
    rw [validateStep_noBake cfg v rc st a hargo hbake]
    exact ⟨rfl, rfl, rfl, rfl, rfl⟩
  · refine ⟨by decide, by decide, by decide⟩

/-- C6 (witness): the general part instantiated at a state with the variant
path recorded and no bake file, with a large remaining budget (retry count
0 of an unbounded budget). -/
theorem C6_witness :
    (validateStep demoCfg passV 0 demoNoBakeSt).isDone = true ∧
    ((validateStep demoCfg passV 0
      demoNoBakeSt).st).dockerfile_validation_passed = some false ∧
    ((validateStep demoCfg passV 0
      demoNoBakeSt).st).dockerfile_validation_error
      = some ("Docker bake file not found at " ++
          relTo demoCfg.clone_path (bakeFilePath demoCfg "Dockerfile-argo")) ∧
    countValidateCalls ((validateStep demoCfg passV 0 demoNoBakeSt).st).trace
      = countValidateCalls demoNoBakeSt.trace ∧
    ((validateStep demoCfg passV 0
      demoNoBakeSt).st).dockerfile_validation_retry_count
      = demoNoBakeSt.dockerfile_validation_retry_count :=
  C6_thm.1 demoCfg passV 0 demoNoBakeSt "Dockerfile-argo" rfl (by decide)

/-- C7 (confirmed): the Validator Runner outcome mapping — exit code 0
yields `passed = true` with no diagnostics; a non-zero exit yields
`passed = false` with diagnostics equal to captured stderr if non-empty else
captured stdout; the fixed 300-second timeout and a missing executable yield
`passed = false` with their fixed messages and are retryable, not fatal: a
demo run whose first call times out (resp. hits a missing executable) and
whose second call passes ends with `passed = true` after 2 validation
calls. -/
theorem C7_thm :
    (∀ se so : String,
      validationOutcomeResult (.exited 0 se so) = (true, none)) ∧
    (∀ (code : Int) (se so : String), ¬ code = 0 →
      validationOutcomeResult (.exited code se so) =
        (false, some (if strIsEmpty se then so else se))) ∧
    validationOutcomeResult .timeout =
      (false, some "Dockerfile validation timed out after 5 minutes") ∧
    validationOutcomeResult .toolNotFound =
      (false,
        some "Docker buildx not found. Please ensure Docker is installed and buildx is available.") ∧
    validation_timeout_seconds = 300 ∧
    (countValidateCalls (create_and_validate_dockerfile_node demoCfg
      timeoutOnceV okTransform demoFs).trace = 2 ∧
     (create_and_validate_dockerfile_node demoCfg timeoutOnceV okTransform
       demoFs).dockerfile_validation_passed = some true) ∧
    (countValidateCalls (create_and_validate_dockerfile_node demoCfg
      fnfOnceV okTransform demoFs).trace = 2 ∧
     (create_and_validate_dockerfile_node demoCfg fnfOnceV okTransform
       demoFs).dockerfile_validation_passed = some true) := by
  refine ⟨fun se so => rfl, ?_, rfl, rfl, rfl, ⟨by decide, by decide⟩,
    ⟨by decide, by decide⟩⟩
  intro code se so h
  simp [validationOutcomeResult, h]

/-- C7 (witness): the non-zero-exit mapping instantiated at exit code 1 with
non-empty stderr. -/
theorem C7_witness :
    validationOutcomeResult (.exited 1 "err text" "out text") =
      (false, some (if strIsEmpty "err text" then "out text"
        else "err text")) :=
  C7_thm.2.1 1 "err text" "out text" (by decide)

/-- C8 (confirmed): whenever the Transformer Client call raises (and the
pass-through branch is not taken, which is the only case in which the
transformer is called), the iteration returns immediately with
`passed = false`, `updated = false` and the fatal conversion error recorded —
no validator invocation happens in this iteration, the stored retry counter
is unchanged, and the transformer was invoked exactly once. -/
theorem C8_thm (cfg : Config) (v : Validator) (tr : TransformOracle)
    (rc : Nat) (verr : Option String) (st : St) (c e : String)
    (hread : st.fs (readTarget cfg rc verr st) = some c)
    (hguard : ¬(rc = 0 ∧ is_multi_stage_dockerfile c = true ∧
      ¬ truthy verr = true))
    (htr : tr c cfg.build_platform cfg.build_as_config verr =
      .error e) :
    (loopBody cfg v tr rc verr st).isDone = true ∧
    ((loopBody cfg v tr rc verr st).st).dockerfile_validation_passed
      = some false ∧
    ((loopBody cfg v tr rc verr st).st).dockerfile_updated = some false ∧
    ((loopBody cfg v tr rc verr st).st).error
      = some ("Failed to convert Dockerfile using LLM: " ++ e) ∧
    countValidateCalls ((loopBody cfg v tr rc verr st).st).trace
      = countValidateCalls st.trace ∧
    countTransformCalls ((loopBody cfg v tr rc verr st).st).trace
      = countTransformCalls st.trace + 1 ∧
    ((loopBody cfg v tr rc verr st).st).dockerfile_validation_retry_count
      = st.dockerfile_validation_retry_count := by
  rw [loopBody_transform_eq cfg v tr rc verr st c hread hguard]
  simp [htr, BodyResult.isDone, BodyResult.st, addEvent, countValidateCalls,
    countTransformCalls, List.countP_append, List.countP_cons,
    Event.isValidateCall, Event.isTransformCall]

/-- C8 (witness): the theorem instantiated on attempt 0 over the demo file
system with an always-raising transformer. -/
theorem C8_witness :
    (loopBody demoCfg passV errTransform 0 none (initSt demoFs)).isDone
      = true ∧
    ((loopBody demoCfg passV errTransform 0 none
      (initSt demoFs)).st).dockerfile_validation_passed = some false ∧
    ((loopBody demoCfg passV errTransform 0 none
      (initSt demoFs)).st).dockerfile_updated = some false ∧
    ((loopBody demoCfg passV errTransform 0 none (initSt demoFs)).st).error
      = some ("Failed to convert Dockerfile using LLM: " ++ "rate limited") ∧
    countValidateCalls ((loopBody demoCfg passV errTransform 0 none
      (initSt demoFs)).st).trace
      = countValidateCalls (initSt demoFs).trace ∧
    countTransformCalls ((loopBody demoCfg passV errTransform 0 none
      (initSt demoFs)).st).trace
      = countTransformCalls (initSt demoFs).trace + 1 ∧
    ((loopBody demoCfg passV errTransform 0 none
      (initSt demoFs)).st).dockerfile_validation_retry_count
      = (initSt demoFs).dockerfile_validation_retry_count :=
  C8_thm demoCfg passV errTransform 0 none (initSt demoFs) demoOrig
    "rate limited" (by decide) (by decide) rfl

/-- C3 (counterexample): the claim says the original path is never re-read
after the first attempt, but when a validation failure captures EMPTY stderr
and stdout the stored diagnostic is the empty string, which is falsy in the
retry-read guard (line 81), so the retry re-reads the ORIGINAL Dockerfile:
with a first call exiting 1 with empty output and a second call passing, the
original path is read twice and the variant path never read. -/
theorem C3_counterexample :
    countReadsOf (create_and_validate_dockerfile_node demoCfg emptyFailV
      okTransform demoFs).trace "/repo/Dockerfile" = 2 ∧
    countReadsOf (create_and_validate_dockerfile_node demoCfg emptyFailV
      okTransform demoFs).trace "/repo/Dockerfile-argo" = 0 ∧
    countValidateCalls (create_and_validate_dockerfile_node demoCfg
      emptyFailV okTransform demoFs).trace = 2 := by decide

/-- C3 (amended): on attempt 0 the content is read from the original
description path; on every retry whose stored diagnostic is NON-EMPTY and
whose derived-variant path is set, the read targets the derived-variant path
and every write of that iteration targets the derived-variant path as well —
but a validation failure with empty captured diagnostics makes the next
attempt fall back to reading the original path. -/
theorem C3_amended_thm :
    (∀ (cfg : Config) (verr : Option String) (st : St),
      readTarget cfg 0 verr st =
        joinPath cfg.clone_path cfg.dockerfile_path) ∧
    (∀ (cfg : Config) (rc : Nat) (e a : String) (st : St), 1 ≤ rc →
      st.dockerfile_argo_path = some a → ¬ e = "" →
      readTarget cfg rc (some e) st = joinPath cfg.clone_path a) ∧
    (∀ (cfg : Config) (v : Validator) (tr : TransformOracle) (rc : Nat)
       (e a : String) (st : St) (p w : String), 1 ≤ rc →
      st.dockerfile_argo_path = some a → ¬ e = "" →
      Event.writeFile p w ∈ ((loopBody cfg v tr rc (some e) st).st).trace →
      Event.writeFile p w ∈ st.trace ∨ p = joinPath cfg.clone_path a) := by
  refine ⟨readTarget_attempt0, readTarget_retry, ?_⟩
  intro cfg v tr rc e a st p w h1 hargo hne hmem
  have htv : truthy (some e) = true := by
    simp [truthy, strIsEmpty_false_of_ne e hne]
  have hrt : readTarget cfg rc (some e) st = joinPath cfg.clone_path a :=
    readTarget_retry cfg rc e a st h1 hargo hne
  cases hr : st.fs (readTarget cfg rc (some e) st) with
  | none =>
      rw [loopBody_noRead cfg v tr rc (some e) st hr] at hmem
      exact Or.inl hmem
  | some c =>
      rw [loopBody_transform_eq cfg v tr rc (some e) st c hr
        (by rintro ⟨h0, -⟩; omega)] at hmem
      cases ht : tr c cfg.build_platform cfg.build_as_config (some e) with
      | error e' =>
          simp only [ht, BodyResult.st, addEvent] at hmem
          simp only [List.mem_append, List.mem_singleton,
            List.mem_cons] at hmem
          rcases hmem with (hmem | hre) | hte
          · exact Or.inl hmem
          · exact absurd hre (by simp)
          · exact absurd hte (by simp)
      | ok u =>
          simp only [ht] at hmem
          rcases validate_write_writes cfg v rc (some e) _ _ u p w hmem
            with hmem2 | hp
          · simp only [addEvent, List.mem_append, List.mem_singleton,
              List.mem_cons] at hmem2
            rcases hmem2 with (hmem2 | hre) | hte
            · exact Or.inl hmem2
            · exact absurd hre (by simp)
            · exact absurd hte (by simp)
          · rw [if_pos ⟨by omega, htv⟩] at hp
            rw [hrt] at hp
            exact Or.inr hp

/-- C3 (witness): the three parts instantiated over the demo states — the
attempt-0 read target, the retry read target with a non-empty diagnostic,
and the retry write target. -/
theorem C3_witness :
    readTarget demoCfg 0 none (initSt demoFs) =
      joinPath demoCfg.clone_path demoCfg.dockerfile_path ∧
    readTarget demoCfg 1 (some "err") demoArgoSt =
      joinPath demoCfg.clone_path "Dockerfile-argo" ∧
    (Event.writeFile "/repo/Dockerfile-argo" demoMulti ∈
      demoArgoSt.trace ∨
     "/repo/Dockerfile-argo" = joinPath demoCfg.clone_path
      "Dockerfile-argo") :=
  ⟨C3_amended_thm.1 demoCfg none (initSt demoFs),
   C3_amended_thm.2.1 demoCfg 1 "err" "Dockerfile-argo" demoArgoSt le_rfl rfl
     (by decide),
   C3_amended_thm.2.2 demoCfg passV okTransform 1 "err" "Dockerfile-argo"
     demoArgoSt "/repo/Dockerfile-argo" demoMulti le_rfl rfl (by decide)
     (by decide)⟩

/-- C10 (confirmed): any validator-subprocess exception other than a timeout
or a missing executable is a retryable validation failure: with budget
remaining the step continues the loop, increments and stores the attempt
counter, and stores (and passes on as context for the next transformation)
the diagnostic `"Unexpected error during validation: " ++ msg`; the next
retry iteration that reads content passes exactly this diagnostic to the
Transformer; and a demo run whose validator always raises exhausts the
budget after 3 validation calls with `passed = false`. -/
theorem C10_thm :
    (∀ (cfg : Config) (v : Validator) (rc : Nat) (st : St)
       (a bk msg : String),
      st.dockerfile_argo_path = some a →
      st.fs (bakeFilePath cfg a) = some bk →
      v st.vcalls = .otherError msg →
      rc + 1 ≤ cfg.max_retries →
      validateStep cfg v rc st =
        .next (some ("Unexpected error during validation: " ++ msg))
          { st with
            trace := st.trace ++ [Event.validateCall (bakeFilePath cfg a)]
            vcalls := st.vcalls + 1
            dockerfile_validation_retry_count := rc + 1
            dockerfile_validation_error :=
              some ("Unexpected error during validation: " ++ msg) }) ∧
    (∀ (cfg : Config) (v : Validator) (tr : TransformOracle) (rc : Nat)
       (st : St) (msg c : String), 1 ≤ rc →
      st.fs (readTarget cfg rc
        (some ("Unexpected error during validation: " ++ msg)) st)
        = some c →
      Event.transformCall c
          (some ("Unexpected error during validation: " ++ msg)) ∈
        ((loopBody cfg v tr rc
          (some ("Unexpected error during validation: " ++ msg))
          st).st).trace) ∧
    (countValidateCalls (create_and_validate_dockerfile_node demoCfg
      otherErrV okTransform demoFs).trace = 3 ∧
     (create_and_validate_dockerfile_node demoCfg otherErrV okTransform
       demoFs).dockerfile_validation_passed = some false ∧
     (create_and_validate_dockerfile_node demoCfg otherErrV okTransform
       demoFs).dockerfile_validation_retry_count = 3 ∧
     (create_and_validate_dockerfile_node demoCfg otherErrV okTransform
       demoFs).dockerfile_validation_error
       = some ("Unexpected error during validation: " ++ "kaput")) := by
  refine ⟨?_, ?_, by decide, by decide, by decide, by decide⟩
  · intro cfg v rc st a bk msg hargo hbake hv hbud
    have hfail : (validationOutcomeResult (v st.vcalls)).1 = false := by
      rw [hv]; rfl
    rw [validateStep_fail_next cfg v rc st a bk hargo hbake hfail hbud, hv]
    rfl
  · intro cfg v tr rc st msg c h1 hread
    rw [loopBody_transform_eq cfg v tr rc
      (some ("Unexpected error during validation: " ++ msg)) st c hread
      (by rintro ⟨h0, -⟩; omega)]
    cases ht : tr c cfg.build_platform cfg.build_as_config
        (some ("Unexpected error during validation: " ++ msg)) with
    | error e' => simp [ht, BodyResult.st, addEvent]
    | ok u =>
        simp only [ht]
        apply validateStep_trace_mono
        apply writeStep_trace_mono
        simp [addEvent]

/-- C10 (witness): the retryable step instantiated over `demoArgoSt` with an
always-raising validator, and the threading part instantiated on retry 1. -/
theorem C10_witness :
    validateStep demoCfg otherErrV 0 demoArgoSt =
      .next (some ("Unexpected error during validation: " ++ "kaput"))
        { demoArgoSt with
          trace := demoArgoSt.trace ++
            [Event.validateCall (bakeFilePath demoCfg "Dockerfile-argo")]
          vcalls := demoArgoSt.vcalls + 1
          dockerfile_validation_retry_count := 0 + 1
          dockerfile_validation_error :=
            some ("Unexpected error during validation: " ++ "kaput") } ∧
    Event.transformCall demoOrig
        (some ("Unexpected error during validation: " ++ "kaput")) ∈
      ((loopBody demoCfg passV okTransform 1
        (some ("Unexpected error during validation: " ++ "kaput"))
        demoArgoSt).st).trace :=
  ⟨C10_thm.1 demoCfg otherErrV 0 demoArgoSt "Dockerfile-argo" "target app"
      "kaput" rfl (by decide) rfl (by decide),
   C10_thm.2.1 demoCfg passV okTransform 1 demoArgoSt "kaput" demoOrig
      le_rfl (by decide)⟩

end MigrationAgent
